import Mathlib

/-!
Verification development for the StrategyDeck generator: a shallow
embedding of the deck-synthesis service (`generateDeck`,
`generateInfographic`), the deck renderer (layout dispatch and the
slide-navigation state machine) and the JSON export path, together with
theorems settling the specification's testable properties against the
embedded code.

Conventions of the embedding:
* TypeScript `number` fields are modelled as `Int`; JavaScript truthiness
  of a number is `v ≠ 0`, of a string `s ≠ ""`, of an optional value
  `Option.isSome` combined with the underlying truthiness.
* Optional object properties are `Option` fields; `JSON.stringify` omits
  absent (`none`) properties, mirroring its treatment of `undefined`.
* The outcomes of the external boundaries (the network response's `text`
  property and the stdlib `JSON.parse`) are modelled as a sum type
  `ParseOutcome`; everything after that boundary is translated directly
  from the source.
-/

/-- JSON value trees, the result of `JSON.parse` / argument of
`JSON.stringify`. Numbers are modelled as `Int`. -/
inductive Json where
  | null : Json
  | bool (b : Bool) : Json
  | num (n : Int) : Json
  | str (s : String) : Json
  | arr (elems : List Json) : Json
  | obj (fields : List (String × Json)) : Json

/-- Property lookup on a JSON object's field list: the first field with the
given key, as in a JavaScript object (keys are unique in practice). -/
def lookupField : List (String × Json) → String → Option Json
  | [], _ => none
  | (k, v) :: fs, key => if k = key then some v else lookupField fs key

/-- JavaScript property access `j[key]` on a parsed JSON value. -/
def Json.get (j : Json) (key : String) : Option Json :=
  match j with
  | .obj fs => lookupField fs key
  | _ => none

/-- Read a JSON value as a string, if it is one. -/
def Json.asStr : Json → Option String
  | .str s => some s
  | _ => none

/-- Read a JSON value as a number, if it is one. -/
def Json.asNum : Json → Option Int
  | .num n => some n
  | _ => none

/-- Read a JSON value as an array, if it is one. -/
def Json.asArr : Json → Option (List Json)
  | .arr xs => some xs
  | _ => none

/-- The closed six-value layout enumeration (`SlideLayout` in types.ts). -/
inductive SlideLayout where
  | TITLE
  | BULLET_POINTS
  | TWO_COLUMN
  | CHART_BAR
  | CHART_LINE
  | KPI_GRID
deriving DecidableEq, Repr

/-- One chart data point (`ChartPoint` in types.ts): `value2` is the
optional second comparison series. -/
structure ChartPoint where
  label : String
  value : Int
  value2 : Option Int
deriving DecidableEq, Repr

/-- One KPI card entry (the `kpiData` element type in types.ts). -/
structure KpiEntry where
  label : String
  value : String
  delta : String
deriving DecidableEq, Repr

/-- The layout-dependent content bag of a slide (`Slide.content` in
types.ts); every field is optional. -/
structure SlideContent where
  bullets : Option (List String)
  leftColumn : Option (List String)
  rightColumn : Option (List String)
  chartData : Option (List ChartPoint)
  chartTitle : Option String
  chartXLabel : Option String
  chartYLabel : Option String
  kpiData : Option (List KpiEntry)
deriving DecidableEq, Repr

/-- One presentation slide (`Slide` in types.ts). -/
structure Slide where
  id : String
  layout : SlideLayout
  tracker : String
  actionTitle : String
  kicker : String
  content : SlideContent
  speakerNotes : String
deriving DecidableEq, Repr

/-- The synthesized deck (`Deck` in types.ts). -/
structure Deck where
  title : String
  subtitle : String
  author : String
  slides : List Slide
deriving DecidableEq, Repr

/-!  ## Synthesis Result Acceptor (`generateDeck`, geminiService)

The code after the network call is:

    if (!response.text) { throw new Error("No response generated"); }
    const deckData = JSON.parse(response.text) as Deck;
    return deckData;

wrapped in a `try`/`catch` whose handler rethrows every error as
`new Error("Failed to generate deck. Please check your inputs and try again.")`.
The external boundary (the `text` property and `JSON.parse`) is modelled
as the three possible outcomes; the `as Deck` cast performs no runtime
check, so a successful parse is returned verbatim. -/

/-- Outcome of `response.text` followed by `JSON.parse` at the acceptance
boundary: the text was absent or empty (falsy), the text failed to parse,
or it parsed to a JSON value. -/
inductive ParseOutcome where
  | missingText
  | parseFailure
  | parsed (j : Json)

/-- The single error message every failure of `generateDeck` is rethrown
with (the `catch` block of geminiService). -/
def genericDeckError : String :=
  "Failed to generate deck. Please check your inputs and try again."

/-- Acceptance portion of `generateDeck` (geminiService): a missing text
or a parse failure throws inside the `try` and is rethrown as the one
generic error; a parsed value is cast to `Deck` and returned with no
runtime validation. -/
def generateDeck : ParseOutcome → Except String Json
  | .missingText => .error genericDeckError
  | .parseFailure => .error genericDeckError
  | .parsed j => .ok j

/-- A parsed response whose `slides` property is the empty array. -/
def emptySlidesResponse : Json :=
  .obj [("title", .str "Q3 Review"), ("slides", .arr [])]

/-!  ## Deck Renderer (`SlideContent` component, DeckRenderer.tsx)

Only the data-dependent decisions of the JSX are embedded: which pieces
of content are selected and shown, not the styling around them. -/

/-- The headline of a TITLE slide: the `<h1>` renders `slide.actionTitle`. -/
def titleHeadline (slide : Slide) : String :=
  slide.actionTitle

/-- The subheading of a TITLE slide: the `<p>` renders
`slide.content.chartTitle || slide.content.bullets?.[0]`. JavaScript `||`
falls through on a falsy left operand, so an empty `chartTitle` behaves
like an absent one; `bullets?.[0]` is the head of `bullets` when both
exist. `none` models the JSX rendering nothing (`undefined`). -/
def titleSubheading (content : SlideContent) : Option String :=
  match content.chartTitle with
  | some t => if t = "" then content.bullets.bind List.head? else some t
  | none => content.bullets.bind List.head?

/-- Whether the CHART_BAR branch renders the second `<Bar dataKey="value2">`
series: the JSX guard is `slide.content.chartData?.[0]?.value2 && <Bar …>`,
so the second series appears exactly when the first data point exists,
carries `value2`, and that number is truthy (non-zero). -/
def chartBarSecondSeries (content : SlideContent) : Bool :=
  match (content.chartData.bind List.head?).bind ChartPoint.value2 with
  | some v => v != 0
  | none => false

/-- The two colour states of a KPI delta badge. -/
inductive BadgeColor where
  | positive
  | negative
deriving DecidableEq, Repr

/-- Colour of the delta badge on a KPI card: the KPI_GRID branch picks the
green (positive) classes iff `kpi.delta.includes('+')`. For the
single-character needle `'+'`, `includes` holds iff the plus character
occurs among the string's characters, embedded as membership in the
string's character list. -/
def kpiBadgeColor (delta : String) : BadgeColor :=
  if delta.data.contains '+' then .positive else .negative

/-!  ## Navigation state machine (DeckRenderer.tsx)

    const nextSlide = () => setCurrentSlideIndex(p => Math.min(p + 1, deck.slides.length - 1));
    const prevSlide = () => setCurrentSlideIndex(p => Math.max(p - 1, 0));

Indices are JavaScript numbers, modelled as `Int`; `N` is
`deck.slides.length`. -/

/-- The `next` transition of the navigation cursor. -/
def nextSlide (N p : Int) : Int :=
  min (p + 1) (N - 1)

/-- The `previous` transition of the navigation cursor. -/
def prevSlide (p : Int) : Int :=
  max (p - 1) 0

/-- A navigation action: the two transitions reachable from the arrow
buttons and the two reserved arrow keys. -/
inductive NavAction where
  | next
  | prev
deriving DecidableEq, Repr

/-- One navigation step on the cursor. -/
def navStep (N : Int) (p : Int) : NavAction → Int
  | .next => nextSlide N p
  | .prev => prevSlide p

/-- The cursor after running a sequence of navigation actions from the
initial state `useState(0)`. -/
def navRun (N : Int) (acts : List NavAction) : Int :=
  acts.foldl (navStep N) 0

/-- Iterating `next` from a bounded start keeps the cursor at
`min (start + k) (N - 1)` when the deck is non-empty. -/
theorem iterate_nextSlide (N : Int) (hN : 1 ≤ N) (k : Nat) :
    (nextSlide N)^[k] 0 = min (k : Int) (N - 1) := by
  induction k with
  | zero => simp [nextSlide]; omega
  | succ k ih =>
      rw [Function.iterate_succ_apply', ih]
      simp only [nextSlide]
      omega

/-- Any single navigation step preserves the cursor bounds when the deck
is non-empty. -/
theorem navStep_bounds (N p : Int) (a : NavAction) (hN : 1 ≤ N)
    (h0 : 0 ≤ p) (h1 : p ≤ N - 1) :
    0 ≤ navStep N p a ∧ navStep N p a ≤ N - 1 := by
  cases a <;> simp only [navStep, nextSlide, prevSlide] <;> omega

/-- Folding navigation steps from any in-bounds cursor stays in bounds. -/
theorem navFold_bounds (N : Int) (hN : 1 ≤ N) (acts : List NavAction) :
    ∀ p : Int, 0 ≤ p → p ≤ N - 1 →
      0 ≤ acts.foldl (navStep N) p ∧ acts.foldl (navStep N) p ≤ N - 1 := by
  induction acts with
  | nil => intro p h0 h1; simpa using ⟨h0, h1⟩
  | cons a rest ih =>
      intro p h0 h1
      have hb := navStep_bounds N p a hN h0 h1
      simpa using ih (navStep N p a) hb.1 hb.2

/-!  ## Image Synthesis Pipeline output extraction (`generateInfographic`)

    for (const part of imageResponse.candidates?.[0]?.content?.parts || []) {
      if (part.inlineData) {
        return `data:image/png;base64,${part.inlineData.data}`;
      }
    }
    throw new Error("Failed to generate infographic image.");

The response shape follows the GenAI API: an optional list of candidates,
each with an optional content holding an optional list of parts, each part
optionally carrying inline binary data with a mime type. -/

/-- Inline binary payload of a response part. -/
structure InlineData where
  mimeType : String
  data : String
deriving DecidableEq, Repr

/-- One content part of a generation response. -/
structure GenPart where
  text : Option String
  inlineData : Option InlineData
deriving DecidableEq, Repr

/-- The content of one candidate. -/
structure GenContent where
  parts : Option (List GenPart)
deriving DecidableEq, Repr

/-- One response candidate. -/
structure GenCandidate where
  content : Option GenContent
deriving DecidableEq, Repr

/-- An image-generation response. -/
structure ImageResponse where
  candidates : Option (List GenCandidate)
deriving DecidableEq, Repr

/-- The error message thrown when no inline payload is found. -/
def infographicError : String :=
  "Failed to generate infographic image."

/-- The part list the extraction loop ranges over:
`imageResponse.candidates?.[0]?.content?.parts || []` — only the first
candidate is consulted. -/
def candidateParts (r : ImageResponse) : List GenPart :=
  ((((r.candidates.bind List.head?).bind GenCandidate.content).bind GenContent.parts).getD [])

/-- The loop body: return the data URI of the first part carrying
`inlineData`, with the hardcoded `image/png` media type. -/
def firstInlineDataUri : List GenPart → Option String
  | [] => none
  | p :: ps =>
      match p.inlineData with
      | some d => some ("data:image/png;base64," ++ d.data)
      | none => firstInlineDataUri ps

/-- Output extraction of `generateInfographic` (geminiService): the first
inline payload of the first candidate as a data URI, else the error. -/
def generateInfographic (r : ImageResponse) : Except String String :=
  match firstInlineDataUri (candidateParts r) with
  | some uri => .ok uri
  | none => .error infographicError

/-- The extraction loop is the first-hit search over the part list. -/
theorem firstInlineDataUri_eq_findSome (ps : List GenPart) :
    firstInlineDataUri ps =
      ps.findSome? (fun p => p.inlineData.map
        (fun d => "data:image/png;base64," ++ d.data)) := by
  induction ps with
  | nil => rfl
  | cons p rest ih =>
      cases h : p.inlineData <;>
        simp [firstInlineDataUri, List.findSome?_cons, h, ih]

/-- Every successful extraction result starts with the hardcoded
`data:image/png;base64,` prefix, whatever the payload's mime type. -/
theorem firstInlineDataUri_shape (ps : List GenPart) (s : String)
    (h : firstInlineDataUri ps = some s) :
    ∃ d : InlineData, s = "data:image/png;base64," ++ d.data := by
  induction ps with
  | nil => simp [firstInlineDataUri] at h
  | cons p rest ih =>
      cases hp : p.inlineData with
      | some d =>
          simp [firstInlineDataUri, hp] at h
          exact ⟨d, h.symm⟩
      | none =>
          exact ih (by simpa [firstInlineDataUri, hp] using h)

/-!  ## Export (DeckRenderer.tsx toolbar)

    const dataStr = "data:text/json;charset=utf-8," +
      encodeURIComponent(JSON.stringify(deck, null, 2));

`JSON.stringify` maps the in-memory deck object to a text whose parse tree
is exactly the structural image of the object, with `undefined`-valued
(absent optional) properties omitted; `encodeURIComponent` and the data
URI wrapper are inverted by the downloading browser. Serialization is
therefore modelled at the parse-tree level: `toJson` is the tree
`JSON.parse(JSON.stringify(deck, null, 2))`, and deserialization reads a
`Deck` back off that tree. -/

/-- The fields a property with an optional value contributes to a
serialized object: `JSON.stringify` omits `undefined`-valued properties. -/
def optField (k : String) : Option Json → List (String × Json)
  | some j => [(k, j)]
  | none => []

/-- Serialize a string array. -/
def strListToJson (xs : List String) : Json :=
  .arr (xs.map Json.str)

/-- Read back a list of strings from serialized array elements. -/
def strListOfJsonElems : List Json → Option (List String)
  | [] => some []
  | j :: js =>
      match j.asStr, strListOfJsonElems js with
      | some s, some ss => some (s :: ss)
      | _, _ => none

/-- Read back a string array. -/
def strListOfJson (j : Json) : Option (List String) :=
  j.asArr.bind strListOfJsonElems

/-- Serialize one chart point; `value2` is omitted when absent. -/
def ChartPoint.toJson (p : ChartPoint) : Json :=
  .obj ([("label", .str p.label), ("value", .num p.value)] ++
    optField "value2" (p.value2.map Json.num))

/-- Read back one chart point. -/
def ChartPoint.ofJson (j : Json) : Option ChartPoint := do
  let l ← (j.get "label").bind Json.asStr
  let v ← (j.get "value").bind Json.asNum
  pure ⟨l, v, (j.get "value2").bind Json.asNum⟩

/-- Read back a chart data array. -/
def chartDataOfJsonElems : List Json → Option (List ChartPoint)
  | [] => some []
  | j :: js =>
      match ChartPoint.ofJson j, chartDataOfJsonElems js with
      | some p, some ps => some (p :: ps)
      | _, _ => none

/-- Serialize one KPI entry. -/
def KpiEntry.toJson (k : KpiEntry) : Json :=
  .obj [("label", .str k.label), ("value", .str k.value), ("delta", .str k.delta)]

/-- Read back one KPI entry. -/
def KpiEntry.ofJson (j : Json) : Option KpiEntry := do
  let l ← (j.get "label").bind Json.asStr
  let v ← (j.get "value").bind Json.asStr
  let d ← (j.get "delta").bind Json.asStr
  pure ⟨l, v, d⟩

/-- Read back a KPI data array. -/
def kpiDataOfJsonElems : List Json → Option (List KpiEntry)
  | [] => some []
  | j :: js =>
      match KpiEntry.ofJson j, kpiDataOfJsonElems js with
      | some k, some ks => some (k :: ks)
      | _, _ => none

/-- Serialize the layout enumeration (string-valued in types.ts). -/
def SlideLayout.toJson : SlideLayout → Json
  | .TITLE => .str "TITLE"
  | .BULLET_POINTS => .str "BULLET_POINTS"
  | .TWO_COLUMN => .str "TWO_COLUMN"
  | .CHART_BAR => .str "CHART_BAR"
  | .CHART_LINE => .str "CHART_LINE"
  | .KPI_GRID => .str "KPI_GRID"

/-- Read back the layout enumeration. -/
def SlideLayout.ofJson : Json → Option SlideLayout
  | .str "TITLE" => some .TITLE
  | .str "BULLET_POINTS" => some .BULLET_POINTS
  | .str "TWO_COLUMN" => some .TWO_COLUMN
  | .str "CHART_BAR" => some .CHART_BAR
  | .str "CHART_LINE" => some .CHART_LINE
  | .str "KPI_GRID" => some .KPI_GRID
  | _ => none

/-- Serialize a chart data array. -/
def chartDataToJson (ps : List ChartPoint) : Json :=
  .arr (ps.map ChartPoint.toJson)

/-- Read back a chart data array. -/
def chartDataOfJson (j : Json) : Option (List ChartPoint) :=
  j.asArr.bind chartDataOfJsonElems

/-- Serialize a KPI data array. -/
def kpiDataToJson (ks : List KpiEntry) : Json :=
  .arr (ks.map KpiEntry.toJson)

/-- Read back a KPI data array. -/
def kpiDataOfJson (j : Json) : Option (List KpiEntry) :=
  j.asArr.bind kpiDataOfJsonElems

/-- Serialize the content bag; absent fields are omitted. -/
def SlideContent.toJson (c : SlideContent) : Json :=
  .obj (optField "bullets" (c.bullets.map strListToJson) ++
    (optField "leftColumn" (c.leftColumn.map strListToJson) ++
    (optField "rightColumn" (c.rightColumn.map strListToJson) ++
    (optField "chartData" (c.chartData.map chartDataToJson) ++
    (optField "chartTitle" (c.chartTitle.map Json.str) ++
    (optField "chartXLabel" (c.chartXLabel.map Json.str) ++
    (optField "chartYLabel" (c.chartYLabel.map Json.str) ++
    optField "kpiData" (c.kpiData.map kpiDataToJson))))))))

/-- Read back the content bag (every field optional, so total). -/
def SlideContent.ofJson (j : Json) : SlideContent where
  bullets := (j.get "bullets").bind strListOfJson
  leftColumn := (j.get "leftColumn").bind strListOfJson
  rightColumn := (j.get "rightColumn").bind strListOfJson
  chartData := (j.get "chartData").bind chartDataOfJson
  chartTitle := (j.get "chartTitle").bind Json.asStr
  chartXLabel := (j.get "chartXLabel").bind Json.asStr
  chartYLabel := (j.get "chartYLabel").bind Json.asStr
  kpiData := (j.get "kpiData").bind kpiDataOfJson

/-- Serialize one slide. -/
def Slide.toJson (s : Slide) : Json :=
  .obj [("id", .str s.id), ("layout", s.layout.toJson), ("tracker", .str s.tracker),
    ("actionTitle", .str s.actionTitle), ("kicker", .str s.kicker),
    ("content", s.content.toJson), ("speakerNotes", .str s.speakerNotes)]

/-- Read back one slide. -/
def Slide.ofJson (j : Json) : Option Slide := do
  let i ← (j.get "id").bind Json.asStr
  let l ← (j.get "layout").bind SlideLayout.ofJson
  let tr ← (j.get "tracker").bind Json.asStr
  let a ← (j.get "actionTitle").bind Json.asStr
  let k ← (j.get "kicker").bind Json.asStr
  let c ← j.get "content"
  let sn ← (j.get "speakerNotes").bind Json.asStr
  pure ⟨i, l, tr, a, k, SlideContent.ofJson c, sn⟩

/-- Read back the slide array. -/
def slidesOfJsonElems : List Json → Option (List Slide)
  | [] => some []
  | j :: js =>
      match Slide.ofJson j, slidesOfJsonElems js with
      | some s, some ss => some (s :: ss)
      | _, _ => none

/-- Serialize a deck: the parse tree of the exported document. -/
def Deck.toJson (d : Deck) : Json :=
  .obj [("title", .str d.title), ("subtitle", .str d.subtitle),
    ("author", .str d.author), ("slides", .arr (d.slides.map Slide.toJson))]

/-- Read back a deck from the exported document's parse tree. -/
def Deck.ofJson (j : Json) : Option Deck := do
  let t ← (j.get "title").bind Json.asStr
  let st ← (j.get "subtitle").bind Json.asStr
  let au ← (j.get "author").bind Json.asStr
  let sl ← (j.get "slides").bind Json.asArr
  let ss ← slidesOfJsonElems sl
  pure ⟨t, st, au, ss⟩

/-!  ### Round-trip lemmas for the export path -/

theorem asStr_str (s : String) : Json.asStr (Json.str s) = some s := rfl

theorem lookupField_optField_some (k : String) (j : Json)
    (fs : List (String × Json)) :
    lookupField (optField k (some j) ++ fs) k = some j := by
  simp [optField, lookupField]

theorem lookupField_optField_none (k : String) (fs : List (String × Json)) :
    lookupField (optField k none ++ fs) k = lookupField fs k := rfl

theorem lookupField_optField_ne (k key : String) (v : Option Json)
    (fs : List (String × Json)) (h : ¬ k = key) :
    lookupField (optField k v ++ fs) key = lookupField fs key := by
  cases v <;> simp [optField, lookupField, h]

theorem lookupField_optField_tail_some (k : String) (j : Json) :
    lookupField (optField k (some j)) k = some j := by
  simp [optField, lookupField]

theorem lookupField_optField_tail_none (k : String) :
    lookupField (optField k none) k = none := rfl

theorem lookupField_optField_tail_ne (k key : String) (v : Option Json)
    (h : ¬ k = key) :
    lookupField (optField k v) key = none := by
  cases v <;> simp [optField, lookupField, h]

/-- Decoding inverts encoding pointwise on an optional field. -/
theorem map_bind_roundtrip {α : Type} (enc : α → Json) (dec : Json → Option α)
    (h : ∀ a, dec (enc a) = some a) (o : Option α) :
    (o.map enc).bind dec = o := by
  cases o <;> simp [h]

theorem strList_roundtrip (xs : List String) :
    strListOfJson (strListToJson xs) = some xs := by
  suffices h : strListOfJsonElems (xs.map Json.str) = some xs by
    simpa [strListToJson, strListOfJson, Json.asArr] using h
  induction xs with
  | nil => rfl
  | cons x rest ih => simp [strListOfJsonElems, Json.asStr, ih]

theorem chartPoint_roundtrip (p : ChartPoint) :
    ChartPoint.ofJson (ChartPoint.toJson p) = some p := by
  obtain ⟨l, v, v2⟩ := p
  cases v2 <;>
    simp [ChartPoint.toJson, ChartPoint.ofJson, Json.get, optField,
      lookupField, Json.asStr, Json.asNum]

theorem chartData_roundtrip (ps : List ChartPoint) :
    chartDataOfJson (chartDataToJson ps) = some ps := by
  suffices h : chartDataOfJsonElems (ps.map ChartPoint.toJson) = some ps by
    simpa [chartDataToJson, chartDataOfJson, Json.asArr] using h
  induction ps with
  | nil => rfl
  | cons p rest ih => simp [chartDataOfJsonElems, chartPoint_roundtrip, ih]

theorem kpiEntry_roundtrip (k : KpiEntry) :
    KpiEntry.ofJson (KpiEntry.toJson k) = some k := by
  obtain ⟨l, v, d⟩ := k
  simp [KpiEntry.toJson, KpiEntry.ofJson, Json.get, lookupField, Json.asStr]

theorem kpiData_roundtrip (ks : List KpiEntry) :
    kpiDataOfJson (kpiDataToJson ks) = some ks := by
  suffices h : kpiDataOfJsonElems (ks.map KpiEntry.toJson) = some ks by
    simpa [kpiDataToJson, kpiDataOfJson, Json.asArr] using h
  induction ks with
  | nil => rfl
  | cons k rest ih => simp [kpiDataOfJsonElems, kpiEntry_roundtrip, ih]

theorem slideLayout_roundtrip (l : SlideLayout) :
    SlideLayout.ofJson (SlideLayout.toJson l) = some l := by
  cases l <;> rfl

theorem contentGet_bullets (c : SlideContent) :
    (SlideContent.toJson c).get "bullets" = c.bullets.map strListToJson := by
  cases hb : c.bullets <;>
    simp [SlideContent.toJson, Json.get, hb, lookupField_optField_some,
      lookupField_optField_none, lookupField_optField_ne,
      lookupField_optField_tail_ne]

theorem contentGet_leftColumn (c : SlideContent) :
    (SlideContent.toJson c).get "leftColumn" = c.leftColumn.map strListToJson := by
  cases hb : c.leftColumn <;>
    simp [SlideContent.toJson, Json.get, hb, lookupField_optField_some,
      lookupField_optField_none, lookupField_optField_ne,
      lookupField_optField_tail_ne]

theorem contentGet_rightColumn (c : SlideContent) :
    (SlideContent.toJson c).get "rightColumn" = c.rightColumn.map strListToJson := by
  cases hb : c.rightColumn <;>
    simp [SlideContent.toJson, Json.get, hb, lookupField_optField_some,
      lookupField_optField_none, lookupField_optField_ne,
      lookupField_optField_tail_ne]

theorem contentGet_chartData (c : SlideContent) :
    (SlideContent.toJson c).get "chartData" = c.chartData.map chartDataToJson := by
  cases hb : c.chartData <;>
    simp [SlideContent.toJson, Json.get, hb, lookupField_optField_some,
      lookupField_optField_none, lookupField_optField_ne,
      lookupField_optField_tail_ne]

theorem contentGet_chartTitle (c : SlideContent) :
    (SlideContent.toJson c).get "chartTitle" = c.chartTitle.map Json.str := by
  cases hb : c.chartTitle <;>
    simp [SlideContent.toJson, Json.get, hb, lookupField_optField_some,
      lookupField_optField_none, lookupField_optField_ne,
      lookupField_optField_tail_ne]

theorem contentGet_chartXLabel (c : SlideContent) :
    (SlideContent.toJson c).get "chartXLabel" = c.chartXLabel.map Json.str := by
  cases hb : c.chartXLabel <;>
    simp [SlideContent.toJson, Json.get, hb, lookupField_optField_some,
      lookupField_optField_none, lookupField_optField_ne,
      lookupField_optField_tail_ne]

theorem contentGet_chartYLabel (c : SlideContent) :
    (SlideContent.toJson c).get "chartYLabel" = c.chartYLabel.map Json.str := by
  cases hb : c.chartYLabel <;>
    simp [SlideContent.toJson, Json.get, hb, lookupField_optField_some,
      lookupField_optField_none, lookupField_optField_ne,
      lookupField_optField_tail_ne]

theorem contentGet_kpiData (c : SlideContent) :
    (SlideContent.toJson c).get "kpiData" = c.kpiData.map kpiDataToJson := by
  cases hb : c.kpiData <;>
    simp [SlideContent.toJson, Json.get, hb, lookupField_optField_some,
      lookupField_optField_none, lookupField_optField_ne,
      lookupField_optField_tail_some, lookupField_optField_tail_none]

theorem slideContent_roundtrip (c : SlideContent) :
    SlideContent.ofJson (SlideContent.toJson c) = c := by
  simp only [SlideContent.ofJson, contentGet_bullets, contentGet_leftColumn,
    contentGet_rightColumn, contentGet_chartData, contentGet_chartTitle,
    contentGet_chartXLabel, contentGet_chartYLabel, contentGet_kpiData,
    map_bind_roundtrip _ _ strList_roundtrip,
    map_bind_roundtrip _ _ chartData_roundtrip,
    map_bind_roundtrip _ _ kpiData_roundtrip,
    map_bind_roundtrip _ _ asStr_str]

theorem slide_roundtrip (s : Slide) :
    Slide.ofJson (Slide.toJson s) = some s := by
  obtain ⟨i, l, tr, a, k, c, sn⟩ := s
  simp [Slide.ofJson, Slide.toJson, Json.get, lookupField, asStr_str,
    slideLayout_roundtrip, slideContent_roundtrip]

theorem slides_roundtrip (ss : List Slide) :
    slidesOfJsonElems (ss.map Slide.toJson) = some ss := by
  induction ss with
  | nil => rfl
  | cons s rest ih => simp [slidesOfJsonElems, slide_roundtrip, ih]

/-- In-bounds indexing of a list yields an element (`deck.slides[i]` with
a clamped cursor never reads `undefined`). -/
theorem get?_isSome_of_lt {α : Type} (l : List α) (n : Nat) (h : n < l.length) :
    (l.get? n).isSome = true := by
  induction l generalizing n with
  | nil => exact absurd h (Nat.not_lt_zero n)
  | cons a as ih =>
      cases n with
      | zero => rfl
      | succ m => exact ih m (Nat.lt_of_succ_lt_succ h)

/-!  ## Concrete fixtures used by witnesses and counterexamples -/

/-- The all-absent content bag. -/
def blankContent : SlideContent :=
  ⟨none, none, none, none, none, none, none, none⟩

/-- A sample slide with empty content. -/
def sampleSlide : Slide :=
  ⟨"s1", SlideLayout.TITLE, "Intro", "Revenue grew 20 percent due to pricing",
    "CONTEXT", blankContent, "Welcome the board."⟩

/-- A sample two-slide deck. -/
def sampleDeck : Deck :=
  ⟨"Growth Review", "FY24", "Engagement Team",
    [sampleSlide, { sampleSlide with id := "s2", layout := SlideLayout.KPI_GRID }]⟩

/-- Chart content whose first point carries `value2 = 0`: the field is
present but falsy. -/
def zeroValue2Content : SlideContent :=
  { blankContent with chartData := some [⟨"Q1", 10, some 0⟩] }

/-- The spec's two-series example chart content. -/
def twoSeriesContent : SlideContent :=
  { blankContent with chartData := some [⟨"Q1", 10, some 5⟩, ⟨"Q2", 14, some 8⟩] }

/-- Chart content whose first point omits `value2` while a later point
carries it. -/
def omitFirstContent : SlideContent :=
  { blankContent with chartData := some [⟨"Q1", 10, none⟩, ⟨"Q2", 14, some 8⟩] }

/-- Content with an empty (falsy) `chartTitle` and a non-empty bullet list. -/
def emptyChartTitleContent : SlideContent :=
  { blankContent with chartTitle := some "", bullets := some ["Growth"] }

/-- Content with a non-empty `chartTitle`. -/
def plainChartTitleContent : SlideContent :=
  { blankContent with chartTitle := some "Subtitle" }

/-- Content with no `chartTitle` and a non-empty bullet list. -/
def bulletOnlyContent : SlideContent :=
  { blankContent with bullets := some ["First"] }

/-- An image response whose first candidate has only a text part while the
second candidate carries an inline image payload. -/
def textOnlyFirstCandidate : GenCandidate :=
  ⟨some ⟨some [⟨some "a description instead of pixels", none⟩]⟩⟩

/-- The second candidate of `laterImageResponse`, carrying inline data. -/
def imageSecondCandidate : GenCandidate :=
  ⟨some ⟨some [⟨none, some ⟨"image/png", "QUJD"⟩⟩]⟩⟩

/-- Response with the image only in the second candidate. -/
def laterImageResponse : ImageResponse :=
  ⟨some [textOnlyFirstCandidate, imageSecondCandidate]⟩

/-- Response whose single candidate carries a JPEG-typed inline payload. -/
def jpegPayloadResponse : ImageResponse :=
  ⟨some [⟨some ⟨some [⟨none, some ⟨"image/jpeg", "AAAA"⟩⟩]⟩⟩]⟩

/-!  ## Claims -/

/-- C1, counterexample: a response whose text parses to an object with an
empty `slides` array is accepted by `generateDeck` and returned as the
deck — it does not fail with a schema error and it does produce a Deck,
contradicting the claimed acceptance-time invariants. -/
theorem empty_slides_accepted :
    generateDeck (.parsed emptySlidesResponse) = Except.ok emptySlidesResponse ∧
    emptySlidesResponse.get "slides" = some (Json.arr []) :=
  ⟨rfl, rfl⟩

/-- C1, amended: `generateDeck` performs no schema validation at all:
every response whose text parses is returned verbatim as the Deck
(empty or missing `slides` and out-of-enum layouts included), and every
failure carries the single generic error message, so no distinct
`SynthesisSchemaError` exists. -/
theorem acceptor_no_validation :
    (∀ j : Json, generateDeck (.parsed j) = Except.ok j) ∧
    (∀ (o : ParseOutcome) (e : String), generateDeck o = Except.error e →
      e = genericDeckError) := by
  refine ⟨fun j => rfl, ?_⟩
  intro o e h
  cases o with
  | missingText =>
      simp only [generateDeck, Except.error.injEq] at h
      exact h.symm
  | parseFailure =>
      simp only [generateDeck, Except.error.injEq] at h
      exact h.symm
  | parsed j => exact Except.noConfusion h

/-- C1, witness: the amended theorem applied to a concrete parsed response
and to the concrete missing-text failure. -/
theorem acceptor_no_validation_witness :
    generateDeck (.parsed (Json.obj [])) = Except.ok (Json.obj []) ∧
    genericDeckError = genericDeckError :=
  ⟨acceptor_no_validation.1 (Json.obj []),
   acceptor_no_validation.2 ParseOutcome.missingText genericDeckError rfl⟩

/-- C2, counterexample: when the first chart point carries `value2 = 0`,
the field is present but JavaScript-falsy, so no second bar series is
drawn — refuting the claimed "iff the first element carries a `value2`
field". -/
theorem value2_zero_not_drawn :
    ((zeroValue2Content.chartData.bind List.head?).bind
      ChartPoint.value2).isSome = true ∧
    chartBarSecondSeries zeroValue2Content = false :=
  ⟨rfl, rfl⟩

/-- C2, amended: the renderer draws a second bar series iff `chartData`
has a first element whose `value2` is present and truthy (non-zero); in
particular, when the first data point omits `value2`, only one series is
drawn even if a later point includes it. -/
theorem chartBar_second_series_rule (c : SlideContent) :
    (chartBarSecondSeries c = true ↔
      ∃ (p : ChartPoint) (ps : List ChartPoint) (v : Int),
        c.chartData = some (p :: ps) ∧ p.value2 = some v ∧ v ≠ 0) ∧
    (∀ (p : ChartPoint) (ps : List ChartPoint),
      c.chartData = some (p :: ps) → p.value2 = none →
      chartBarSecondSeries c = false) := by
  constructor
  · unfold chartBarSecondSeries
    cases hcd : c.chartData with
    | none => simp
    | some l =>
        cases l with
        | nil => simp
        | cons p ps =>
            cases hv : p.value2 with
            | none => simp [hv]
            | some v => simp [hv, bne_iff_ne]
  · intro p ps h1 h2
    simp [chartBarSecondSeries, h1, h2]

/-- C2, witness: the amended theorem applied to the spec's two-series
example and to a chart whose first point omits `value2` while the second
carries it. -/
theorem chartBar_second_series_rule_witness :
    chartBarSecondSeries twoSeriesContent = true ∧
    chartBarSecondSeries omitFirstContent = false :=
  ⟨(chartBar_second_series_rule twoSeriesContent).1.mpr
      ⟨⟨"Q1", 10, some 5⟩, [⟨"Q2", 14, some 8⟩], 5, rfl, rfl, by decide⟩,
   (chartBar_second_series_rule omitFirstContent).2
      ⟨"Q1", 10, none⟩ [⟨"Q2", 14, some 8⟩] rfl rfl⟩

/-- C3, counterexample: a response whose first candidate has only a text
part fails with the image-synthesis error even though the second
candidate carries an inline image payload — the scan is not "across all
candidates". -/
theorem later_candidate_image_missed :
    generateInfographic laterImageResponse = Except.error infographicError ∧
    ((imageSecondCandidate.content.bind GenContent.parts).getD []).any
      (fun p => p.inlineData.isSome) = true :=
  ⟨rfl, rfl⟩

/-- C3, amended: `generateInfographic` scans only the first candidate's
content parts in order, returning the first inline payload as a data URI
and failing with the image-synthesis error otherwise; candidates after
the first never influence the part list that is scanned. -/
theorem infographic_first_candidate_only (r : ImageResponse) :
    generateInfographic r =
      (match (candidateParts r).findSome?
          (fun p => p.inlineData.map
            (fun d => "data:image/png;base64," ++ d.data)) with
        | some uri => Except.ok uri
        | none => Except.error infographicError) ∧
    (∀ (c0 : GenCandidate) (rest rest2 : List GenCandidate),
      candidateParts ⟨some (c0 :: rest)⟩ = candidateParts ⟨some (c0 :: rest2)⟩) := by
  refine ⟨?_, fun c0 rest rest2 => rfl⟩
  unfold generateInfographic
  rw [firstInlineDataUri_eq_findSome]

/-- C4, counterexample: an unparseable response produces the same single
generic error as a different failure mode (missing text), so the failure
is not a `SynthesisFormatError` distinguishable from other errors. -/
theorem format_error_not_distinguishable :
    generateDeck ParseOutcome.parseFailure = Except.error genericDeckError ∧
    generateDeck ParseOutcome.missingText = generateDeck ParseOutcome.parseFailure :=
  ⟨rfl, rfl⟩

/-- C4, amended: for every response whose text is not parseable,
`generateDeck` fails and produces no Deck, but the failure carries the
single generic message shared by every failure mode rather than a
distinguishable `SynthesisFormatError`. -/
theorem format_failure_generic :
    generateDeck ParseOutcome.parseFailure = Except.error genericDeckError ∧
    (∀ j : Json, ¬ generateDeck ParseOutcome.parseFailure = Except.ok j) ∧
    (∀ (o : ParseOutcome) (e : String), generateDeck o = Except.error e →
      generateDeck ParseOutcome.parseFailure = Except.error e) := by
  refine ⟨rfl, fun j h => Except.noConfusion h, ?_⟩
  intro o e h
  cases o with
  | missingText => exact h
  | parseFailure => exact h
  | parsed j => exact Except.noConfusion h

/-- C4, witness: the amended theorem applied to the concrete
missing-text failure and a concrete would-be deck value. -/
theorem format_failure_generic_witness :
    ¬ generateDeck ParseOutcome.parseFailure = Except.ok Json.null ∧
    generateDeck ParseOutcome.parseFailure = Except.error genericDeckError :=
  ⟨format_failure_generic.2.1 Json.null,
   format_failure_generic.2.2 ParseOutcome.missingText genericDeckError rfl⟩

/-- C5: for a deck with `N ≥ 1` slides and any in-bounds cursor, `next`
yields `min (index + 1) (N - 1)` and `previous` yields
`max (index - 1) 0`; starting at 0, `N - 1` consecutive `next` calls
reach `N - 1`, a further `next` is a no-op, and `previous` at 0 is a
no-op. -/
theorem nav_transition_rules (N p : Int) (hN : 1 ≤ N) (h0 : 0 ≤ p)
    (h1 : p ≤ N - 1) :
    nextSlide N p = min (p + 1) (N - 1) ∧
    prevSlide p = max (p - 1) 0 ∧
    (nextSlide N)^[N.toNat - 1] 0 = N - 1 ∧
    nextSlide N (N - 1) = N - 1 ∧
    prevSlide 0 = 0 := by
  refine ⟨rfl, rfl, ?_, ?_, ?_⟩
  · rw [iterate_nextSlide N hN]
    omega
  · unfold nextSlide
    omega
  · unfold prevSlide
    omega

/-- C5, witness: the navigation rules at the concrete deck size 3 and
cursor 1. -/
theorem nav_transition_rules_witness :
    nextSlide 3 1 = min (1 + 1) (3 - 1) ∧
    prevSlide 1 = max (1 - 1) 0 ∧
    (nextSlide 3)^[(3 : Int).toNat - 1] 0 = 3 - 1 ∧
    nextSlide 3 (3 - 1) = 3 - 1 ∧
    prevSlide 0 = 0 :=
  nav_transition_rules 3 1 (by decide) (by decide) (by decide)

/-- C6: for every non-empty deck, the cursor reached from the initial
state 0 by any sequence of next/previous transitions stays in
`[0, N - 1]`, so the renderer's unguarded `deck.slides[currentIndex]`
always finds a slide. -/
theorem nav_cursor_in_bounds (d : Deck) (acts : List NavAction)
    (h : d.slides ≠ []) :
    0 ≤ navRun (d.slides.length : Int) acts ∧
    navRun (d.slides.length : Int) acts ≤ (d.slides.length : Int) - 1 ∧
    (d.slides.get? (navRun (d.slides.length : Int) acts).toNat).isSome = true := by
  have hN : 1 ≤ (d.slides.length : Int) := by
    have hpos : 0 < d.slides.length := List.length_pos.mpr h
    omega
  have hb := navFold_bounds (d.slides.length : Int) hN acts 0 le_rfl (by omega)
  refine ⟨hb.1, hb.2, ?_⟩
  refine get?_isSome_of_lt _ _ ?_
  have h1 := hb.1
  have h2 := hb.2
  unfold navRun
  omega

/-- C6, witness: the cursor invariant on a concrete two-slide deck after
the action sequence next, next, previous. -/
theorem nav_cursor_in_bounds_witness :
    0 ≤ navRun (sampleDeck.slides.length : Int)
        [NavAction.next, NavAction.next, NavAction.prev] ∧
    navRun (sampleDeck.slides.length : Int)
        [NavAction.next, NavAction.next, NavAction.prev] ≤
      (sampleDeck.slides.length : Int) - 1 ∧
    (sampleDeck.slides.get? (navRun (sampleDeck.slides.length : Int)
        [NavAction.next, NavAction.next, NavAction.prev]).toNat).isSome = true :=
  nav_cursor_in_bounds sampleDeck [NavAction.next, NavAction.next, NavAction.prev]
    (by simp [sampleDeck])

/-- C7: the KPI delta badge is positive iff the delta string contains a
literal plus character; `"+12%"` is positive while `"-3%"` and `"flat"`
are negative. -/
theorem kpi_delta_plus_rule :
    (∀ delta : String,
      kpiBadgeColor delta = BadgeColor.positive ↔ delta.data.contains '+' = true) ∧
    kpiBadgeColor "+12%" = BadgeColor.positive ∧
    kpiBadgeColor "-3%" = BadgeColor.negative ∧
    kpiBadgeColor "flat" = BadgeColor.negative := by
  refine ⟨?_, by decide, by decide, by decide⟩
  intro delta
  cases h : delta.data.contains '+' <;> simp [kpiBadgeColor, h] <;>
    simpa using h

/-- C7, witness: the characterization applied to a concrete delta string
containing a plus. -/
theorem kpi_delta_plus_rule_witness :
    kpiBadgeColor "+7pts" = BadgeColor.positive :=
  (kpi_delta_plus_rule.1 "+7pts").mpr (by decide)

/-- C8, counterexample: with `chartTitle` present but empty and a
non-empty bullet list, the TITLE subheading is the first bullet, not the
present `chartTitle` — refuting "equals `chartTitle` when that field is
present". -/
theorem empty_chartTitle_overridden :
    emptyChartTitleContent.chartTitle = some "" ∧
    titleSubheading emptyChartTitleContent = some "Growth" ∧
    ¬ titleSubheading emptyChartTitleContent = emptyChartTitleContent.chartTitle :=
  ⟨rfl, rfl, by decide⟩

/-- C8, amended: the TITLE headline is `actionTitle`, and the subheading
is `chartTitle` when present and non-empty, else the first bullet when
`bullets` is present and non-empty, else nothing — an empty `chartTitle`
falls through to the bullet fallback. -/
theorem title_slide_rendering :
    (∀ s : Slide, titleHeadline s = s.actionTitle) ∧
    (∀ (c : SlideContent) (t : String),
      c.chartTitle = some t → ¬ t = "" → titleSubheading c = some t) ∧
    (∀ (c : SlideContent) (b : String) (bs : List String),
      (c.chartTitle = none ∨ c.chartTitle = some "") →
      c.bullets = some (b :: bs) → titleSubheading c = some b) ∧
    (∀ c : SlideContent,
      (c.chartTitle = none ∨ c.chartTitle = some "") →
      (c.bullets = none ∨ c.bullets = some []) → titleSubheading c = none) := by
  refine ⟨fun s => rfl, ?_, ?_, ?_⟩
  · intro c t h1 h2
    simp [titleSubheading, h1, h2]
  · intro c b bs h1 h2
    rcases h1 with h1 | h1 <;> simp [titleSubheading, h1, h2]
  · intro c h1 h2
    rcases h1 with h1 | h1 <;> rcases h2 with h2 | h2 <;>
      simp [titleSubheading, h1, h2]

/-- C8, witness: the amended rendering rule at a non-empty `chartTitle`,
at an absent `chartTitle` with bullets, and at fully absent content. -/
theorem title_slide_rendering_witness :
    titleSubheading plainChartTitleContent = some "Subtitle" ∧
    titleSubheading bulletOnlyContent = some "First" ∧
    titleSubheading blankContent = none :=
  ⟨title_slide_rendering.2.1 plainChartTitleContent "Subtitle" rfl (by decide),
   title_slide_rendering.2.2.1 bulletOnlyContent "First" [] (Or.inl rfl) rfl,
   title_slide_rendering.2.2.2 blankContent (Or.inl rfl) (Or.inl rfl)⟩

/-- C9: serializing a deck through the export path and reading the
document back yields the original deck, every slide field (including
`speakerNotes`) and the deck metadata surviving unchanged. -/
theorem export_round_trip (d : Deck) :
    Deck.ofJson (Deck.toJson d) = some d := by
  obtain ⟨t, st, au, ss⟩ := d
  simp [Deck.ofJson, Deck.toJson, Json.get, lookupField, asStr_str,
    Json.asArr, slides_roundtrip]

/-- C10: every successful `generateInfographic` result is the hardcoded
`data:image/png;base64,` prefix followed by the inline payload's data,
and the returned URI never depends on the payload's own mime type. -/
theorem infographic_png_hardcoded :
    (∀ (r : ImageResponse) (s : String), generateInfographic r = Except.ok s →
      ∃ d : InlineData, s = "data:image/png;base64," ++ d.data) ∧
    (∀ (txt : Option String) (mt dat : String) (ps : List GenPart),
      firstInlineDataUri (⟨txt, some ⟨mt, dat⟩⟩ :: ps) =
        some ("data:image/png;base64," ++ dat)) := by
  constructor
  · intro r s h
    unfold generateInfographic at h
    cases hf : firstInlineDataUri (candidateParts r) with
    | none =>
        rw [hf] at h
        exact Except.noConfusion h
    | some u =>
        rw [hf] at h
        cases h
        exact firstInlineDataUri_shape _ s hf
  · intro txt mt dat ps
    rfl

/-- C10, witness: a concrete JPEG-typed payload still comes back as an
`image/png` data URI. -/
theorem infographic_png_hardcoded_witness :
    generateInfographic jpegPayloadResponse =
      Except.ok ("data:image/png;base64," ++ "AAAA") ∧
    ∃ d : InlineData,
      "data:image/png;base64," ++ "AAAA" = "data:image/png;base64," ++ d.data :=
  ⟨rfl, infographic_png_hardcoded.1 jpegPayloadResponse
    ("data:image/png;base64," ++ "AAAA") rfl⟩
